import Mathlib

/-!
Verification of `asio/experimental/diagnostic_executor.hpp` (and its unit
test file) against its natural-language specification.

The adapter is embedded shallowly: its runtime state is a structure holding
the inner executor value and the label value, its diagnostic-policy template
parameter is a phantom type parameter, and every member function is a pure
Lean function returning (a) the ordered trace of observable calls the C++
body performs (the policy hook call and the delegation to the inner
executor) and (b) the post-call adapter state.  Traces are interpreted by
`runTrace` against an arbitrary semantics of the inner executor, which may
fail (modelling exceptions from the inner executor's submission operations).
-/

namespace AsioSpec

/-- Runtime state of a `diagnostic_executor<InnerExecutor, Label,
DiagnosticPolicy>` (lines 251-253 of the header): exactly the inner executor
value `inner_` and the label value `label_`.  The diagnostic policy is the
phantom type parameter `P`, mirroring the C++ template parameter that is
never stored as a member. -/
structure DiagnosticExecutor (E L P : Type) where
  inner_ : E
  label_ : L
  deriving DecidableEq

/-- Modelled from the spec: asio's `executor_binder` / `bind_executor` (not
under src/) associates an executor with a work item; the allocator-aware
overloads of dispatch/post/defer use it to re-wrap the work item so the
continuation's associated executor is the adapter itself. -/
structure ExecutorBinder (X W : Type) where
  executor : X
  target : W
  deriving DecidableEq

/-- Modelled from the spec: `asio::bind_executor(e, w)` builds the binder
associating executor `e` with work item `w`. -/
def bind_executor {X W : Type} (e : X) (w : W) : ExecutorBinder X W :=
  ⟨e, w⟩

/-- One observable call performed by an adapter member-function body:
either the diagnostic policy's `on_submit` hook (recorded with its label
argument), or a delegation to the inner executor.  `E` is the inner
executor type, `L` the label type, `P` the (phantom) diagnostic policy
type, `W` the work-item type, `A` the allocator type. -/
inductive Action (E L P W A : Type) where
  | hook (label : L)
  | innerExecute (e : E) (w : W)
  | innerDispatch (e : E) (w : W)
  | innerPost (e : E) (w : W)
  | innerDefer (e : E) (w : W)
  | innerDispatchAlloc (e : E) (bw : ExecutorBinder (DiagnosticExecutor E L P) W) (a : A)
  | innerPostAlloc (e : E) (bw : ExecutorBinder (DiagnosticExecutor E L P) W) (a : A)
  | innerDeferAlloc (e : E) (bw : ExecutorBinder (DiagnosticExecutor E L P) W) (a : A)
  | innerContext (e : E)
  | innerWorkStarted (e : E)
  | innerWorkFinished (e : E)
  deriving DecidableEq

/-- `diagnostic_executor::execute` (lines 138-143): call
`DiagnosticPolicy::on_submit(label_)`, then `inner_.execute(f)`.  The
method is const: the returned post-call state is the unchanged adapter. -/
def DiagnosticExecutor.execute {E L P W : Type} (A : Type)
    (x : DiagnosticExecutor E L P) (f : W) :
    List (Action E L P W A) × DiagnosticExecutor E L P :=
  ([Action.hook x.label_, Action.innerExecute x.inner_ f], x)

/-- `diagnostic_executor::dispatch(f)` (lines 165-170): call the hook, then
`asio::dispatch(inner_, f)`, the inner executor's dispatch-style submission. -/
def DiagnosticExecutor.dispatch {E L P W : Type} (A : Type)
    (x : DiagnosticExecutor E L P) (f : W) :
    List (Action E L P W A) × DiagnosticExecutor E L P :=
  ([Action.hook x.label_, Action.innerDispatch x.inner_ f], x)

/-- `diagnostic_executor::dispatch(f, a)` (lines 173-178): call the hook,
then `inner_.dispatch(asio::bind_executor(*this, f), a)`: the work item is
re-wrapped with the current adapter as associated executor. -/
def DiagnosticExecutor.dispatch_alloc {E L P W A : Type}
    (x : DiagnosticExecutor E L P) (f : W) (a : A) :
    List (Action E L P W A) × DiagnosticExecutor E L P :=
  ([Action.hook x.label_, Action.innerDispatchAlloc x.inner_ (bind_executor x f) a], x)

/-- `diagnostic_executor::post(f)` (lines 181-186): call the hook, then
`asio::post(inner_, f)`. -/
def DiagnosticExecutor.post {E L P W : Type} (A : Type)
    (x : DiagnosticExecutor E L P) (f : W) :
    List (Action E L P W A) × DiagnosticExecutor E L P :=
  ([Action.hook x.label_, Action.innerPost x.inner_ f], x)

/-- `diagnostic_executor::post(f, a)` (lines 189-194): call the hook, then
`inner_.post(asio::bind_executor(*this, f), a)`. -/
def DiagnosticExecutor.post_alloc {E L P W A : Type}
    (x : DiagnosticExecutor E L P) (f : W) (a : A) :
    List (Action E L P W A) × DiagnosticExecutor E L P :=
  ([Action.hook x.label_, Action.innerPostAlloc x.inner_ (bind_executor x f) a], x)

/-- `diagnostic_executor::defer(f)` (lines 197-202): call the hook, then
`asio::defer(inner_, f)`. -/
def DiagnosticExecutor.defer {E L P W : Type} (A : Type)
    (x : DiagnosticExecutor E L P) (f : W) :
    List (Action E L P W A) × DiagnosticExecutor E L P :=
  ([Action.hook x.label_, Action.innerDefer x.inner_ f], x)

/-- `diagnostic_executor::defer(f, a)` (lines 205-210): call the hook, then
`inner_.defer(asio::bind_executor(*this, f), a)`. -/
def DiagnosticExecutor.defer_alloc {E L P W A : Type}
    (x : DiagnosticExecutor E L P) (f : W) (a : A) :
    List (Action E L P W A) × DiagnosticExecutor E L P :=
  ([Action.hook x.label_, Action.innerDeferAlloc x.inner_ (bind_executor x f) a], x)

/-- `diagnostic_executor::context` (lines 147-150): returns
`inner_.context()`; there is no hook call in the body. -/
def DiagnosticExecutor.context {E L P : Type} (W A : Type)
    (x : DiagnosticExecutor E L P) :
    List (Action E L P W A) × DiagnosticExecutor E L P :=
  ([Action.innerContext x.inner_], x)

/-- `diagnostic_executor::on_work_started` (lines 153-156): calls
`inner_.on_work_started()`; no hook call. -/
def DiagnosticExecutor.on_work_started {E L P : Type} (W A : Type)
    (x : DiagnosticExecutor E L P) :
    List (Action E L P W A) × DiagnosticExecutor E L P :=
  ([Action.innerWorkStarted x.inner_], x)

/-- `diagnostic_executor::on_work_finished` (lines 159-162): calls
`inner_.on_work_finished()`; no hook call. -/
def DiagnosticExecutor.on_work_finished {E L P : Type} (W A : Type)
    (x : DiagnosticExecutor E L P) :
    List (Action E L P W A) × DiagnosticExecutor E L P :=
  ([Action.innerWorkFinished x.inner_], x)

/-- Modelled from the spec: the view the adapter has of the inner
executor's query capability for one fixed property, through asio's query
machinery (`asio::can_query`, `asio::is_nothrow_query`, `asio::query`),
which is repository code not under src/.  `can_query` and
`is_nothrow_query` are the compile-time booleans, `query` the value-level
query function. -/
structure QueryTraits (E Prp R : Type) where
  can_query : Bool
  is_nothrow_query : Bool
  query : E → Prp → R

/-- `diagnostic_executor::query` (lines 220-227): returns
`asio::query(inner_, p)`; const method, adapter state unchanged. -/
def DiagnosticExecutor.query {E L P Prp R : Type}
    (x : DiagnosticExecutor E L P) (qt : QueryTraits E Prp R) (p : Prp) :
    R × DiagnosticExecutor E L P :=
  (qt.query x.inner_ p, x)

/-- The noexcept-specification of `diagnostic_executor::query`
(lines 222-223): `can_query && is_nothrow_query` computed on the inner
executor, a static compile-time boolean. -/
def DiagnosticExecutor.query_noexcept {E Prp R : Type}
    (qt : QueryTraits E Prp R) : Bool :=
  qt.can_query && qt.is_nothrow_query

/-- `diagnostic_executor::require` (lines 230-238): builds a new adapter
wrapping `asio::require(inner_, p)` (abstracted as the transformation
`require_inner`) and carrying the same `label_`; the return type keeps the
same label type `L` and the same phantom diagnostic-policy type `P`.
Const method, original adapter state unchanged (second component). -/
def DiagnosticExecutor.require {E E2 L P : Type}
    (x : DiagnosticExecutor E L P) (require_inner : E → E2) :
    DiagnosticExecutor E2 L P × DiagnosticExecutor E L P :=
  (⟨require_inner x.inner_, x.label_⟩, x)

/-- `diagnostic_executor::prefer` (lines 241-249): identical shape to
`require`, using the inner executor's preference transformation. -/
def DiagnosticExecutor.prefer {E E2 L P : Type}
    (x : DiagnosticExecutor E L P) (prefer_inner : E → E2) :
    DiagnosticExecutor E2 L P × DiagnosticExecutor E L P :=
  (⟨prefer_inner x.inner_, x.label_⟩, x)

/-- `operator==` (lines 120-124): `a.inner_ == b.inner_ && a.label_ ==
b.label_`, with the inner executor's and label's equality operators
abstracted as boolean functions. -/
def diagnostic_executor_eq {E L P : Type} (eqE : E → E → Bool)
    (eqL : L → L → Bool) (a b : DiagnosticExecutor E L P) : Bool :=
  eqE a.inner_ b.inner_ && eqL a.label_ b.label_

/-- `operator!=` (lines 127-131): `!(a == b)`. -/
def diagnostic_executor_ne {E L P : Type} (eqE : E → E → Bool)
    (eqL : L → L → Bool) (a b : DiagnosticExecutor E L P) : Bool :=
  !(diagnostic_executor_eq eqE eqL a b)

/-- `null_diagnostic_policy::on_submit` (lines 42-49): accepts any label,
performs no action and never throws; as an effect on any world state `S`
it is the identity. -/
def null_diagnostic_policy_on_submit (L S : Type) : L → S → S :=
  fun _ s => s

/-- Modelled from the spec: the baseline of submitting the work item
directly to the inner executor (no adapter): a single inner-execute call. -/
def direct_execute {E W : Type} (L P A : Type) (e : E) (f : W) :
    List (Action E L P W A) :=
  [Action.innerExecute e f]

/-- Effect of one trace action on a world state `S`, given the policy
hook's effect `pol` and a (possibly failing) semantics `step` of the inner
executor's operations; failure models an exception raised by the inner
executor, while the hook is non-throwing by contract. -/
def actStep {E L P W A S Err : Type} (pol : L → S → S)
    (step : Action E L P W A → S → Except Err S)
    (a : Action E L P W A) (s : S) : Except Err S :=
  match a with
  | Action.hook l => Except.ok (pol l s)
  | a => step a s

/-- Modelled from the spec: interpretation of a call trace, running the
hook and the inner-executor delegations in order; an exception from the
inner executor aborts the run and propagates unchanged. -/
def runTrace {E L P W A S Err : Type} (pol : L → S → S)
    (step : Action E L P W A → S → Except Err S) :
    List (Action E L P W A) → S → Except Err S
  | [], s => Except.ok s
  | a :: rest, s =>
    match actStep pol step a s with
    | Except.ok s2 => runTrace pol step rest s2
    | Except.error err => Except.error err

/-- Recognizer of hook actions in a trace. -/
def isHookA {E L P W A : Type} : Action E L P W A → Bool
  | Action.hook _ => true
  | _ => false

/-- Recognizer of inner-executor submission actions (execute, dispatch,
post, defer and their allocator-aware variants); context access and
work-tracking are not submissions. -/
def isSubmitA {E L P W A : Type} : Action E L P W A → Bool
  | Action.hook _ => false
  | Action.innerContext _ => false
  | Action.innerWorkStarted _ => false
  | Action.innerWorkFinished _ => false
  | _ => true

/-- The diagnostic hook is invoked exactly once in the trace, with label
`l`, and strictly before every inner-executor submission: the trace splits
around a single hook action carrying `l`, no other hook occurs, and no
submission occurs before the hook. -/
def hookOnceBefore {E L P W A : Type} (l : L)
    (t : List (Action E L P W A)) : Prop :=
  ∃ pre post, t = pre ++ (Action.hook l :: post) ∧
    (pre ++ post).filter isHookA = [] ∧
    pre.filter isSubmitA = []

/-- Extracts the re-wrapped (executor-bound) work item handed to the inner
executor by an allocator-aware submission, if the action is one. -/
def submittedBoundWork {E L P W A : Type} :
    Action E L P W A → Option (ExecutorBinder (DiagnosticExecutor E L P) W)
  | Action.innerDispatchAlloc _ bw _ => some bw
  | Action.innerPostAlloc _ bw _ => some bw
  | Action.innerDeferAlloc _ bw _ => some bw
  | _ => none

/-- Modelled from the spec: asio's `traits::equality_comparable` data for a
fixed type (validity and noexcept flags). -/
structure EqualityComparableTrait where
  is_valid : Bool
  is_noexcept : Bool
  deriving DecidableEq

/-- The `traits::equality_comparable` specialization for the adapter
(lines 270-276): both flags are copied from the inner executor's trait. -/
def diag_equality_comparable (t : EqualityComparableTrait) :
    EqualityComparableTrait :=
  ⟨t.is_valid, t.is_noexcept⟩

/-- Modelled from the spec: asio's `traits::execute_member` data for a
fixed executor type and work-item type. -/
structure ExecuteMemberTrait where
  is_valid : Bool
  is_noexcept : Bool
  deriving DecidableEq

/-- Modelled from the spec: the primary (unspecialized) asio trait template
reports the capability as absent. -/
def execute_member_primary : ExecuteMemberTrait :=
  ⟨false, false⟩

/-- The `traits::execute_member` specialization for the adapter
(lines 279-289): enabled exactly when the inner executor's trait is valid,
in which case it is valid with the inner trait's noexcept flag; otherwise
the primary template applies. -/
def diag_execute_member (t : ExecuteMemberTrait) : ExecuteMemberTrait :=
  if t.is_valid then ⟨true, t.is_noexcept⟩ else execute_member_primary

/-- Modelled from the spec: asio's `traits::static_query` data for a fixed
executor type and property: validity, noexcept flag, and the statically
computed value (of the declared result type `R`) when valid. -/
structure StaticQueryTrait (R : Type) where
  is_valid : Bool
  is_noexcept : Bool
  value : Option R
  deriving DecidableEq

/-- Modelled from the spec: the primary (unspecialized) static-query trait
reports the capability as absent, with no value. -/
def static_query_primary (R : Type) : StaticQueryTrait R :=
  ⟨false, false, none⟩

/-- The `traits::static_query` specialization for the adapter
(lines 292-307): enabled exactly when the inner executor's trait is valid,
in which case validity holds, the noexcept flag and the result
type/value are the inner trait's own; otherwise the primary applies. -/
def diag_static_query {R : Type} (t : StaticQueryTrait R) :
    StaticQueryTrait R :=
  if t.is_valid then ⟨true, t.is_noexcept, t.value⟩ else static_query_primary R

/-- Modelled from the spec: asio's `traits::query_member` data (validity
and noexcept flags) as declared by a trait specialization. -/
structure QueryMemberTrait where
  is_valid : Bool
  is_noexcept : Bool
  deriving DecidableEq

/-- Modelled from the spec: the primary (unspecialized) query-member trait
reports the capability as absent. -/
def query_member_primary : QueryMemberTrait :=
  ⟨false, false⟩

/-- The `traits::query_member` specialization for the adapter
(lines 309-320): enabled exactly when the inner executor is queryable for
the property, in which case it is valid with the inner executor's
`is_nothrow_query` flag. -/
def diag_query_member {E Prp R : Type} (qt : QueryTraits E Prp R) :
    QueryMemberTrait :=
  if qt.can_query then ⟨true, qt.is_nothrow_query⟩ else query_member_primary

/-- Running a trace that starts with a hook call first applies the policy
effect to the state. -/
theorem runTrace_hook_cons {E L P W A S Err : Type} (pol : L → S → S)
    (step : Action E L P W A → S → Except Err S) (l : L)
    (rest : List (Action E L P W A)) (s : S) :
    runTrace pol step (Action.hook l :: rest) s
      = runTrace pol step rest (pol l s) :=
  rfl

/-- Running a trace consisting of a single non-hook action is exactly the
inner-executor semantics of that action, including its failure outcome. -/
theorem runTrace_single_submit {E L P W A S Err : Type} (pol : L → S → S)
    (step : Action E L P W A → S → Except Err S) (ev : Action E L P W A)
    (hev : isHookA ev = false) (s : S) :
    runTrace pol step [ev] s = step ev s := by
  cases ev
  case hook l => simp [isHookA] at hev
  all_goals
    simp only [runTrace]
    split
    next s2 heq => exact heq.symm
    next err heq => exact heq.symm

/-- C1: every submission through the adapter via execute, dispatch, post,
or defer (including the allocator-aware overloads of dispatch/post/defer)
invokes the diagnostic policy's on_submit hook exactly once, with the
adapter's stored label as argument, strictly before the inner executor's
corresponding submission operation; the submissions in each trace are
exactly the single corresponding inner-executor call. -/
theorem c1_hook_once_with_label_before_inner_submit
    (E L P W A : Type) (x : DiagnosticExecutor E L P) (f : W) (a : A) :
    (hookOnceBefore x.label_ (DiagnosticExecutor.execute A x f).1 ∧
      (DiagnosticExecutor.execute A x f).1.filter isSubmitA
        = [Action.innerExecute x.inner_ f]) ∧
    (hookOnceBefore x.label_ (DiagnosticExecutor.dispatch A x f).1 ∧
      (DiagnosticExecutor.dispatch A x f).1.filter isSubmitA
        = [Action.innerDispatch x.inner_ f]) ∧
    (hookOnceBefore x.label_ (DiagnosticExecutor.post A x f).1 ∧
      (DiagnosticExecutor.post A x f).1.filter isSubmitA
        = [Action.innerPost x.inner_ f]) ∧
    (hookOnceBefore x.label_ (DiagnosticExecutor.defer A x f).1 ∧
      (DiagnosticExecutor.defer A x f).1.filter isSubmitA
        = [Action.innerDefer x.inner_ f]) ∧
    (hookOnceBefore x.label_ (DiagnosticExecutor.dispatch_alloc x f a).1 ∧
      (DiagnosticExecutor.dispatch_alloc x f a).1.filter isSubmitA
        = [Action.innerDispatchAlloc x.inner_ (bind_executor x f) a]) ∧
    (hookOnceBefore x.label_ (DiagnosticExecutor.post_alloc x f a).1 ∧
      (DiagnosticExecutor.post_alloc x f a).1.filter isSubmitA
        = [Action.innerPostAlloc x.inner_ (bind_executor x f) a]) ∧
    (hookOnceBefore x.label_ (DiagnosticExecutor.defer_alloc x f a).1 ∧
      (DiagnosticExecutor.defer_alloc x f a).1.filter isSubmitA
        = [Action.innerDeferAlloc x.inner_ (bind_executor x f) a]) :=
  ⟨⟨⟨[], [Action.innerExecute x.inner_ f], rfl, rfl, rfl⟩, rfl⟩,
   ⟨⟨[], [Action.innerDispatch x.inner_ f], rfl, rfl, rfl⟩, rfl⟩,
   ⟨⟨[], [Action.innerPost x.inner_ f], rfl, rfl, rfl⟩, rfl⟩,
   ⟨⟨[], [Action.innerDefer x.inner_ f], rfl, rfl, rfl⟩, rfl⟩,
   ⟨⟨[], [Action.innerDispatchAlloc x.inner_ (bind_executor x f) a], rfl, rfl, rfl⟩, rfl⟩,
   ⟨⟨[], [Action.innerPostAlloc x.inner_ (bind_executor x f) a], rfl, rfl, rfl⟩, rfl⟩,
   ⟨⟨[], [Action.innerDeferAlloc x.inner_ (bind_executor x f) a], rfl, rfl, rfl⟩, rfl⟩⟩

/-- C2: with the default null_diagnostic_policy (whose on_submit accepts
any label, does nothing, and never throws), submitting a work item through
the adapter's execute is observably identical to submitting the same work
item directly to the inner executor: under every inner-executor semantics
`step` and every starting state the two runs have the same outcome. -/
theorem c2_null_policy_zero_overhead
    (E L P W A S Err : Type)
    (step : Action E L P W A → S → Except Err S)
    (x : DiagnosticExecutor E L P) (f : W) (s : S) :
    runTrace (null_diagnostic_policy_on_submit L S) step
        (DiagnosticExecutor.execute A x f).1 s
      = runTrace (null_diagnostic_policy_on_submit L S) step
        (direct_execute L P A x.inner_ f) s :=
  rfl

/-- C3: two adapters compare equal exactly when their inner executors
compare equal and their labels compare equal, and inequality is the exact
boolean negation of equality. -/
theorem c3_equality_iff_components (E L P : Type)
    (eqE : E → E → Bool) (eqL : L → L → Bool)
    (a b : DiagnosticExecutor E L P) :
    (diagnostic_executor_eq eqE eqL a b = true ↔
      (eqE a.inner_ b.inner_ = true ∧ eqL a.label_ b.label_ = true)) ∧
    diagnostic_executor_ne eqE eqL a b
      = !(diagnostic_executor_eq eqE eqL a b) := by
  refine ⟨?_, rfl⟩
  simp [diagnostic_executor_eq]

/-- C4: applying a require (or prefer) transformation to an adapter yields
a new adapter wrapping the transformed inner executor and carrying the
same label value; the result type `DiagnosticExecutor E2 L P` keeps the
same label type and the same (phantom) diagnostic-policy type, so only the
inner-executor type/value changes. -/
theorem c4_require_prefer_preserve_label_and_policy
    (E E2 L P : Type) (x : DiagnosticExecutor E L P)
    (require_inner prefer_inner : E → E2) :
    ((DiagnosticExecutor.require x require_inner).1.inner_
        = require_inner x.inner_ ∧
      (DiagnosticExecutor.require x require_inner).1.label_ = x.label_) ∧
    ((DiagnosticExecutor.prefer x prefer_inner).1.inner_
        = prefer_inner x.inner_ ∧
      (DiagnosticExecutor.prefer x prefer_inner).1.label_ = x.label_) :=
  ⟨⟨rfl, rfl⟩, ⟨rfl, rfl⟩⟩

/-- C5: each allocator-aware overload of dispatch, post, and defer hands
the inner executor a re-wrapped work item whose associated executor is a
copy of the current adapter (same inner executor, same label, same phantom
diagnostic-policy type) and whose target is the original work item. -/
theorem c5_alloc_overloads_rewrap_with_current_adapter
    (E L P W A : Type) (x : DiagnosticExecutor E L P) (f : W) (a : A) :
    (DiagnosticExecutor.dispatch_alloc x f a).1.filterMap submittedBoundWork
        = [bind_executor x f] ∧
    (DiagnosticExecutor.post_alloc x f a).1.filterMap submittedBoundWork
        = [bind_executor x f] ∧
    (DiagnosticExecutor.defer_alloc x f a).1.filterMap submittedBoundWork
        = [bind_executor x f] ∧
    (bind_executor x f).executor = x ∧ (bind_executor x f).target = f :=
  ⟨rfl, rfl, rfl, rfl, rfl⟩

/-- C6: each legacy-model submission operation of the adapter (dispatch,
post, defer, in both overloads) runs as the hook effect followed by
exactly the corresponding inner-executor submission on the unchanged work
item: the adapter's outcome equals the inner executor's outcome, so any
error the inner executor raises propagates unchanged, with no translation,
wrapping, or suppression. -/
theorem c6_legacy_submissions_delegate_and_propagate_errors
    (E L P W A S Err : Type) (pol : L → S → S)
    (step : Action E L P W A → S → Except Err S)
    (x : DiagnosticExecutor E L P) (f : W) (a : A) (s : S) :
    runTrace pol step (DiagnosticExecutor.dispatch A x f).1 s
        = step (Action.innerDispatch x.inner_ f) (pol x.label_ s) ∧
    runTrace pol step (DiagnosticExecutor.post A x f).1 s
        = step (Action.innerPost x.inner_ f) (pol x.label_ s) ∧
    runTrace pol step (DiagnosticExecutor.defer A x f).1 s
        = step (Action.innerDefer x.inner_ f) (pol x.label_ s) ∧
    runTrace pol step (DiagnosticExecutor.dispatch_alloc x f a).1 s
        = step (Action.innerDispatchAlloc x.inner_ (bind_executor x f) a)
            (pol x.label_ s) ∧
    runTrace pol step (DiagnosticExecutor.post_alloc x f a).1 s
        = step (Action.innerPostAlloc x.inner_ (bind_executor x f) a)
            (pol x.label_ s) ∧
    runTrace pol step (DiagnosticExecutor.defer_alloc x f a).1 s
        = step (Action.innerDeferAlloc x.inner_ (bind_executor x f) a)
            (pol x.label_ s) :=
  ⟨runTrace_single_submit pol step (Action.innerDispatch x.inner_ f) rfl
      (pol x.label_ s),
   runTrace_single_submit pol step (Action.innerPost x.inner_ f) rfl
      (pol x.label_ s),
   runTrace_single_submit pol step (Action.innerDefer x.inner_ f) rfl
      (pol x.label_ s),
   runTrace_single_submit pol step
      (Action.innerDispatchAlloc x.inner_ (bind_executor x f) a) rfl
      (pol x.label_ s),
   runTrace_single_submit pol step
      (Action.innerPostAlloc x.inner_ (bind_executor x f) a) rfl
      (pol x.label_ s),
   runTrace_single_submit pol step
      (Action.innerDeferAlloc x.inner_ (bind_executor x f) a) rfl
      (pol x.label_ s)⟩

/-- C7: the adapter's context, on_work_started, and on_work_finished
delegate to exactly the inner executor's corresponding operation and
perform zero on_submit invocations. -/
theorem c7_context_and_work_tracking_no_hook
    (E L P W A : Type) (x : DiagnosticExecutor E L P) :
    ((DiagnosticExecutor.context W A x).1
        = [Action.innerContext x.inner_] ∧
      (DiagnosticExecutor.context W A x).1.filter isHookA = []) ∧
    ((DiagnosticExecutor.on_work_started W A x).1
        = [Action.innerWorkStarted x.inner_] ∧
      (DiagnosticExecutor.on_work_started W A x).1.filter isHookA = []) ∧
    ((DiagnosticExecutor.on_work_finished W A x).1
        = [Action.innerWorkFinished x.inner_] ∧
      (DiagnosticExecutor.on_work_finished W A x).1.filter isHookA = []) :=
  ⟨⟨rfl, rfl⟩, ⟨rfl, rfl⟩, ⟨rfl, rfl⟩⟩

/-- C8: for every property queryable on the inner executor, the adapter's
query returns exactly what the inner executor's query reports, and the
adapter's query (and its query_member trait) is declared non-throwing
exactly when the inner executor's query for that property is. -/
theorem c8_query_delegates_and_noexcept_mirrors
    (E L P Prp R : Type) (x : DiagnosticExecutor E L P)
    (qt : QueryTraits E Prp R) (p : Prp) (h : qt.can_query = true) :
    (DiagnosticExecutor.query x qt p).1 = qt.query x.inner_ p ∧
    DiagnosticExecutor.query_noexcept qt = qt.is_nothrow_query ∧
    diag_query_member qt = ⟨true, qt.is_nothrow_query⟩ := by
  refine ⟨rfl, ?_, ?_⟩
  · simp [DiagnosticExecutor.query_noexcept, h]
  · simp [diag_query_member, h]

/-- Witness for C8 at a concrete queryable inner executor. -/
theorem c8_query_witness :
    (QueryTraits.mk true false (fun (e p : Nat) => e + p)
        : QueryTraits Nat Nat Nat).can_query = true ∧
    ((DiagnosticExecutor.query (⟨2, 5⟩ : DiagnosticExecutor Nat Nat Unit)
          (QueryTraits.mk true false (fun e p => e + p)) 7).1 = 9 ∧
      DiagnosticExecutor.query_noexcept
          (QueryTraits.mk true false (fun (e p : Nat) => e + p)) = false ∧
      diag_query_member
          (QueryTraits.mk true false (fun (e p : Nat) => e + p))
        = ⟨true, false⟩) :=
  ⟨rfl, c8_query_delegates_and_noexcept_mirrors Nat Nat Unit Nat Nat
      ⟨2, 5⟩ ⟨true, false, fun e p => e + p⟩ 7 rfl⟩

/-- C9: static, instance-free capability reporting of the adapter mirrors
the inner executor: equality-comparability is copied verbatim; the
execute-member capability is valid exactly when the inner one is, with the
inner noexcept flag when valid; static queryability is valid exactly when
the inner one is, with the same noexcept flag and the same statically
computed value (of the same declared result type) when valid. -/
theorem c9_static_capability_mirrors_inner
    (R : Type) (teq : EqualityComparableTrait) (tex : ExecuteMemberTrait)
    (tsq : StaticQueryTrait R) :
    diag_equality_comparable teq = teq ∧
    (diag_execute_member tex).is_valid = tex.is_valid ∧
    (tex.is_valid = true →
      diag_execute_member tex = ⟨true, tex.is_noexcept⟩) ∧
    (diag_static_query tsq).is_valid = tsq.is_valid ∧
    (tsq.is_valid = true →
      diag_static_query tsq = ⟨true, tsq.is_noexcept, tsq.value⟩) := by
  refine ⟨rfl, ?_, ?_, ?_, ?_⟩
  · cases h : tex.is_valid <;>
      simp [diag_execute_member, h, execute_member_primary]
  · intro h; simp [diag_execute_member, h]
  · cases h : tsq.is_valid <;>
      simp [diag_static_query, h, static_query_primary]
  · intro h; simp [diag_static_query, h]

/-- Witness for C9 at concrete valid inner-executor traits. -/
theorem c9_static_capability_witness :
    diag_equality_comparable ⟨true, false⟩
        = (⟨true, false⟩ : EqualityComparableTrait) ∧
    diag_execute_member ⟨true, true⟩ = (⟨true, true⟩ : ExecuteMemberTrait) ∧
    diag_static_query (⟨true, false, some 3⟩ : StaticQueryTrait Nat)
        = ⟨true, false, some 3⟩ :=
  have h := c9_static_capability_mirrors_inner Nat ⟨true, false⟩
      ⟨true, true⟩ ⟨true, false, some 3⟩
  ⟨h.1, h.2.2.1 rfl, h.2.2.2.2 rfl⟩

/-- C10: the adapter's runtime state is exactly its inner executor value
and its label value (structure eta), and no submission or capability
operation mutates it: the post-call state of execute, dispatch, post,
defer (both overloads), query, require, and prefer equals the state before
the call. -/
theorem c10_operations_do_not_mutate_state
    (E E2 L P W A Prp R : Type) (x : DiagnosticExecutor E L P) (f : W)
    (a : A) (qt : QueryTraits E Prp R) (p : Prp) (t1 t2 : E → E2) :
    (DiagnosticExecutor.execute A x f).2 = x ∧
    (DiagnosticExecutor.dispatch A x f).2 = x ∧
    (DiagnosticExecutor.dispatch_alloc x f a).2 = x ∧
    (DiagnosticExecutor.post A x f).2 = x ∧
    (DiagnosticExecutor.post_alloc x f a).2 = x ∧
    (DiagnosticExecutor.defer A x f).2 = x ∧
    (DiagnosticExecutor.defer_alloc x f a).2 = x ∧
    (DiagnosticExecutor.query x qt p).2 = x ∧
    (DiagnosticExecutor.require x t1).2 = x ∧
    (DiagnosticExecutor.prefer x t2).2 = x ∧
    x = ⟨x.inner_, x.label_⟩ :=
  ⟨rfl, rfl, rfl, rfl, rfl, rfl, rfl, rfl, rfl, rfl, rfl⟩

end AsioSpec
